import Mathlib

set_option maxHeartbeats 1000000

/-!
Shallow embedding of `src/kernel/fs/squashfs/inode.c` (squashfs kernel
module, inode decoding).  The file `inode.c` is embedded function by
function: `squashfs_new_inode` and `squashfs_read_inode` below follow the
C control flow statement by statement.  External collaborators that are
declared in headers outside `src/` (the metadata cursor
`squashfs_read_metadata`, the resolvers `squashfs_get_id` and
`get_fragment_location`, the format constants of `squashfs_fs.h` and the
kernel helper `new_decode_dev`) are passed in as parameters or modelled
from the specification, each with a doc comment saying so.

Machine integers are modelled as `Nat`/`Int` with explicit wrap-around
(`% 2^w`, `Int.fdiv` for the C arithmetic right shift on signed values,
logical shift `>>> ` on `Nat` for unsigned values) exactly where the C
types force it.  The decoder additionally returns a trace of the calls it
makes to its collaborators (metadata reads, id lookups, fragment lookups),
so that claims about "which collaborator is invoked when, and at which
cursor position" become statements about the trace.
-/

/-- Value of a little-endian 16-bit on-disk field (`le16_to_cpu`): byte-order
conversion is value-preserving, the result is a 16-bit unsigned value. -/
def le16_to_cpu (x : Nat) : Nat := x % 65536

/-- Value of a little-endian 32-bit on-disk field (`le32_to_cpu`). -/
def le32_to_cpu (x : Nat) : Nat := x % 4294967296

/-- Value of a little-endian 64-bit on-disk field (`le64_to_cpu`). -/
def le64_to_cpu (x : Nat) : Nat := x % 18446744073709551616

/-- C conversion of a signed `int` value to `unsigned int` (wraps mod 2^32);
used where `inode.c` assigns the `int` return of `get_fragment_location`
to the `unsigned int` local `frag_size`. -/
def u32_of_int (x : Int) : Nat := (x % 4294967296).toNat

/-- C conversion of an `unsigned int` value back to `int` (gcc semantics:
wraps); used where `inode.c` assigns the `unsigned int` local `frag_size`
to the `int` local `err`. -/
def int_of_u32 (u : Nat) : Int :=
  if u < 2147483648 then (u : Int) else (u : Int) - 4294967296

/-- C conversion of a `u64` value to the signed 64-bit `loff_t` (gcc
semantics: wraps); used where `inode.c` assigns `le64_to_cpu(file_size)`
to `inode->i_size`. -/
def s64_of_u64 (n : Nat) : Int :=
  if n < 9223372036854775808 then (n : Int) else (n : Int) - 18446744073709551616

/-- Modelled from the spec: the inode type discriminants of the on-disk
format (`squashfs_fs.h` is not under `src/`); the names are the ones
`inode.c` dispatches on. -/
def SQUASHFS_DIR_TYPE : Nat := 1

/-- Modelled from the spec: basic regular file discriminant. -/
def SQUASHFS_FILE_TYPE : Nat := 2

/-- Modelled from the spec: symbolic link discriminant. -/
def SQUASHFS_SYMLINK_TYPE : Nat := 3

/-- Modelled from the spec: block device discriminant. -/
def SQUASHFS_BLKDEV_TYPE : Nat := 4

/-- Modelled from the spec: character device discriminant. -/
def SQUASHFS_CHRDEV_TYPE : Nat := 5

/-- Modelled from the spec: fifo discriminant. -/
def SQUASHFS_FIFO_TYPE : Nat := 6

/-- Modelled from the spec: socket discriminant. -/
def SQUASHFS_SOCKET_TYPE : Nat := 7

/-- Modelled from the spec: extended directory discriminant. -/
def SQUASHFS_LDIR_TYPE : Nat := 8

/-- Modelled from the spec: extended regular file discriminant. -/
def SQUASHFS_LREG_TYPE : Nat := 9

/-- Modelled from the spec: the reserved "no fragment" sentinel, a
distinguished maximum-valued 32-bit constant (`squashfs_fs.h` is not under
`src/`). -/
def SQUASHFS_INVALID_FRAG : Nat := 4294967295

/-- Modelled from the spec: the reserved invalid metadata-block sentinel,
a distinguished maximum-valued constant; as a C `long long` it is `-1`
(`squashfs_fs.h` is not under `src/`). -/
def SQUASHFS_INVALID_BLK : Int := -1

/-- Modelled from the spec: the Reference Codec splitting the 48-bit inode
reference; the in-block byte offset (legal range `< 8192`) lives in the
low 16 bits, the metadata block offset in the upper 32 bits
(`SQUASHFS_INODE_BLK` of `squashfs_fs.h`, not under `src/`: the C macro
casts `a >> 16` to `unsigned int`). -/
def SQUASHFS_INODE_BLK (a : Nat) : Nat := (a >>> 16) % 4294967296

/-- Modelled from the spec: the in-block byte offset half of the Reference
Codec (`SQUASHFS_INODE_OFFSET` of `squashfs_fs.h`, not under `src/`:
the C macro is `a & 0xffff`). -/
def SQUASHFS_INODE_OFFSET (a : Nat) : Nat := a &&& 65535

/-- Modelled from the spec: composing a 48-bit inode reference from the
metadata block offset and the in-block byte offset (`SQUASHFS_MKINODE`
of `squashfs_fs.h`, not under `src/`: `((long long) A << 16) + B`). -/
def SQUASHFS_MKINODE (a b : Nat) : Nat := (a <<< 16) + b

/-- Linux errno used by the unknown-type branch of `squashfs_read_inode`
(`err = -EINVAL`). -/
def EINVAL : Int := 22

/-- Linux regular-file mode bit `S_IFREG`. -/
def S_IFREG : Nat := 32768

/-- Linux directory mode bit `S_IFDIR`. -/
def S_IFDIR : Nat := 16384

/-- Linux symlink mode bits `S_IFLNK`. -/
def S_IFLNK : Nat := 40960

/-- Linux character-device mode bit `S_IFCHR`. -/
def S_IFCHR : Nat := 8192

/-- Linux block-device mode bits `S_IFBLK`. -/
def S_IFBLK : Nat := 24576

/-- Linux fifo mode bit `S_IFIFO`. -/
def S_IFIFO : Nat := 4096

/-- Linux socket mode bits `S_IFSOCK`. -/
def S_IFSOCK : Nat := 49152

/-- Modelled from the spec: the kernel helper `new_decode_dev` (not under
`src/`) unpacking a packed 32-bit device number; the spec gives
`minor = (raw & 0xff) | ((raw >> 12) & 0xfff00)` and
`major = (raw >> 8) & 0xfff`.  The result is the (major, minor) pair. -/
def new_decode_dev (dev : Nat) : Nat × Nat :=
  ((dev >>> 8) &&& 4095, (dev &&& 255) ||| ((dev >>> 12) &&& 1048320))

/-- On-disk base inode header `struct squashfs_base_inode`: the fields
common to every inode type, as `inode.c` reads them (raw field values,
before the explicit `leXX_to_cpu` conversions in the code). -/
structure squashfs_base_inode where
  inode_type : Nat := 0
  mode : Nat := 0
  uid : Nat := 0
  guid : Nat := 0
  mtime : Nat := 0
  inode_number : Nat := 0
deriving Repr, DecidableEq

/-- On-disk basic regular file inode `struct squashfs_reg_inode` (the
fields `inode.c` uses; the struct also repeats the base header fields). -/
structure squashfs_reg_inode where
  start_block : Nat := 0
  fragment : Nat := 0
  offset : Nat := 0
  file_size : Nat := 0
deriving Repr, DecidableEq

/-- On-disk extended regular file inode `struct squashfs_lreg_inode` (the
fields `inode.c` uses; the struct also repeats the base header fields). -/
structure squashfs_lreg_inode where
  start_block : Nat := 0
  file_size : Nat := 0
  sparse : Nat := 0
  nlink : Nat := 0
  fragment : Nat := 0
  offset : Nat := 0
deriving Repr, DecidableEq

/-- On-disk basic directory inode `struct squashfs_dir_inode` (the fields
`inode.c` uses). -/
structure squashfs_dir_inode where
  start_block : Nat := 0
  nlink : Nat := 0
  file_size : Nat := 0
  offset : Nat := 0
  parent_inode : Nat := 0
deriving Repr, DecidableEq

/-- On-disk extended directory inode `struct squashfs_ldir_inode` (the
fields `inode.c` uses). -/
structure squashfs_ldir_inode where
  nlink : Nat := 0
  file_size : Nat := 0
  start_block : Nat := 0
  parent_inode : Nat := 0
  i_count : Nat := 0
  offset : Nat := 0
deriving Repr, DecidableEq

/-- On-disk symlink inode `struct squashfs_symlink_inode` (the fixed
header fields `inode.c` uses; the target bytes follow on disk but are not
part of the fixed-size struct read). -/
structure squashfs_symlink_inode where
  nlink : Nat := 0
  symlink_size : Nat := 0
deriving Repr, DecidableEq

/-- On-disk device inode `struct squashfs_dev_inode` (the fields
`inode.c` uses). -/
structure squashfs_dev_inode where
  nlink : Nat := 0
  rdev : Nat := 0
deriving Repr, DecidableEq

/-- On-disk ipc (fifo/socket) inode `struct squashfs_ipc_inode` (the
fields `inode.c` uses). -/
structure squashfs_ipc_inode where
  nlink : Nat := 0
deriving Repr, DecidableEq

/-- The in-memory decoded inode: the VFS `struct inode` fields that
`inode.c` assigns, together with the squashfs-private `squashfs_inode_info`
fields reached through `SQUASHFS_I(inode)`.  The device number is kept as
the (major, minor) pair produced by `new_decode_dev`. -/
structure vfs_inode where
  i_uid : Nat := 0
  i_gid : Nat := 0
  i_ino : Nat := 0
  i_mtime : Nat := 0
  i_atime : Nat := 0
  i_ctime : Nat := 0
  i_mode : Nat := 0
  i_size : Int := 0
  i_blocks : Nat := 0
  i_nlink : Nat := 0
  i_rdev_major : Nat := 0
  i_rdev_minor : Nat := 0
  fragment_block : Int := 0
  fragment_size : Nat := 0
  fragment_offset : Nat := 0
  start : Int := 0
  offset : Nat := 0
  block_list_start : Int := 0
  dir_idx_start : Int := 0
  dir_idx_offset : Nat := 0
  dir_idx_cnt : Nat := 0
  parent : Nat := 0
deriving Repr, DecidableEq

/-- Kind tag naming which fixed-size on-disk record a metadata read
fetches (which `sizeof(*sqsh_ino)` is passed to `squashfs_read_metadata`). -/
inductive RecKind where
  | base
  | reg
  | lreg
  | dir
  | ldir
  | symlink
  | dev
  | ipc
deriving Repr, DecidableEq

/-- Observable collaborator calls made during one decode, in order:
metadata reads (with the cursor position they start at), id-resolver
calls and fragment-resolver calls. -/
inductive Event where
  | readMeta (k : RecKind) (block : Int) (offset : Nat)
  | getId (index : Nat)
  | getFragment (index : Nat)
deriving Repr, DecidableEq

/-- Test returning true when the event is a fragment-resolver call. -/
def Event.isGetFragment : Event → Bool
  | .getFragment _ => true
  | _ => false

/-- Test holding for events that are either not metadata reads, or are
metadata reads starting at position (B, O). -/
def Event.metaAt (B : Int) (O : Nat) : Event → Bool
  | .readMeta _ b o => b == B && o == O
  | _ => true

/-- Modelled from the spec: the Metadata Cursor collaborator
(`squashfs_read_metadata`, not under `src/`).  Each reader takes the
(block, in-block offset) cursor position, and either fails (the C function
returned a negative errno) or returns the record read plus the advanced
cursor position (the C function updates `block` and `offset` through
pointers).  One reader per fixed-size record type stands for the one C
function called with the corresponding `sizeof`. -/
structure MetaStream where
  readBase : Int → Nat → Except Int (squashfs_base_inode × Int × Nat) := fun _ _ => .error (-5)
  readReg : Int → Nat → Except Int (squashfs_reg_inode × Int × Nat) := fun _ _ => .error (-5)
  readLReg : Int → Nat → Except Int (squashfs_lreg_inode × Int × Nat) := fun _ _ => .error (-5)
  readDir : Int → Nat → Except Int (squashfs_dir_inode × Int × Nat) := fun _ _ => .error (-5)
  readLDir : Int → Nat → Except Int (squashfs_ldir_inode × Int × Nat) := fun _ _ => .error (-5)
  readSymlink : Int → Nat → Except Int (squashfs_symlink_inode × Int × Nat) := fun _ _ => .error (-5)
  readDev : Int → Nat → Except Int (squashfs_dev_inode × Int × Nat) := fun _ _ => .error (-5)
  readIpc : Int → Nat → Except Int (squashfs_ipc_inode × Int × Nat) := fun _ _ => .error (-5)

/-- Embedding of `squashfs_new_inode` (inode.c lines 55-77): initialise the
VFS inode with the base information common to all types.  The ID Resolver
`squashfs_get_id` (id.c, not under `src/`) is passed in as a collaborator
returning either the resolved id or the negative errno the C code checks
with `if (err)`.  Besides the C result (the initialised inode or the first
error), the embedding returns the trace of resolver calls made. -/
def squashfs_new_inode (squashfs_get_id : Nat → Except Int Nat)
    (sqsh_ino : squashfs_base_inode) : Except Int vfs_inode × List Event :=
  match squashfs_get_id (le16_to_cpu sqsh_ino.uid) with
  | .error e => (.error e, [.getId (le16_to_cpu sqsh_ino.uid)])
  | .ok uid =>
    match squashfs_get_id (le16_to_cpu sqsh_ino.guid) with
    | .error e =>
      (.error e, [.getId (le16_to_cpu sqsh_ino.uid), .getId (le16_to_cpu sqsh_ino.guid)])
    | .ok gid =>
      (.ok { i_uid := uid
             i_gid := gid
             i_ino := le32_to_cpu sqsh_ino.inode_number
             i_mtime := le32_to_cpu sqsh_ino.mtime
             i_atime := le32_to_cpu sqsh_ino.mtime
             i_ctime := le32_to_cpu sqsh_ino.mtime
             i_mode := le16_to_cpu sqsh_ino.mode
             i_size := 0 },
       [.getId (le16_to_cpu sqsh_ino.uid), .getId (le16_to_cpu sqsh_ino.guid)])

/-- Embedding of `squashfs_read_inode` (inode.c lines 108-343): decode the
48-bit inode reference `ino` into a typed in-memory inode.  Parameters:
`inode_table_start` is `msblk->inode_table_start`; `str` is the Metadata
Cursor collaborator; `squashfs_get_id` and `get_fragment_location` are the
ID and Fragment Resolvers.  `get_fragment_location` (fragment.c, not under
`src/`) returns the C `int` result (fragment size, or a negative errno)
together with the `long long` fragment block it stores through its output
pointer.  The returned pair is the C result (decoded inode or first error)
plus the ordered trace of collaborator calls. -/
def squashfs_read_inode (inode_table_start : Int) (str : MetaStream)
    (squashfs_get_id : Nat → Except Int Nat)
    (get_fragment_location : Nat → Int × Int) (ino : Nat) :
    Except Int vfs_inode × List Event :=
  let block0 : Int := (SQUASHFS_INODE_BLK ino : Int) + inode_table_start
  let offset0 : Nat := SQUASHFS_INODE_OFFSET ino
  match str.readBase block0 offset0 with
  | .error e => (.error e, [.readMeta .base block0 offset0])
  | .ok (sqsh_ino, _, _) =>
    match squashfs_new_inode squashfs_get_id sqsh_ino with
    | (.error e, tr) => (.error e, .readMeta .base block0 offset0 :: tr)
    | (.ok vi, tr) =>
      let tr0 : List Event := .readMeta .base block0 offset0 :: tr
      let block : Int := (SQUASHFS_INODE_BLK ino : Int) + inode_table_start
      let offset : Nat := SQUASHFS_INODE_OFFSET ino
      let type : Nat := le16_to_cpu sqsh_ino.inode_type
      if type = SQUASHFS_FILE_TYPE then
        match str.readReg block offset with
        | .error e => (.error e, tr0 ++ [.readMeta .reg block offset])
        | .ok (sq, block1, offset1) =>
          let frag := le32_to_cpu sq.fragment
          match (if frag ≠ SQUASHFS_INVALID_FRAG then
                   let frag_offset := le32_to_cpu sq.offset
                   let fr := get_fragment_location frag
                   let frag_size : Nat := u32_of_int fr.1
                   if frag_size < 0 then
                     ((.error (int_of_u32 frag_size) : Except Int (Int × Nat × Nat)),
                      [Event.getFragment frag])
                   else
                     (.ok (fr.2, frag_size, frag_offset), [Event.getFragment frag])
                 else
                   ((.ok (SQUASHFS_INVALID_BLK, 0, 0) : Except Int (Int × Nat × Nat)),
                    ([] : List Event))) with
          | (.error e, ev) => (.error e, tr0 ++ .readMeta .reg block offset :: ev)
          | (.ok (frag_blk, frag_size, frag_offset), ev) =>
            let i_size : Int := (le32_to_cpu sq.file_size : Int)
            (.ok { vi with
                    i_nlink := 1
                    i_size := i_size
                    i_mode := vi.i_mode ||| S_IFREG
                    i_blocks := ((((i_size - 1).fdiv 512 + 1)) % 18446744073709551616).toNat
                    fragment_block := frag_blk
                    fragment_size := frag_size
                    fragment_offset := frag_offset
                    start := (le32_to_cpu sq.start_block : Int)
                    block_list_start := block1
                    offset := offset1 },
             tr0 ++ .readMeta .reg block offset :: ev)
      else if type = SQUASHFS_LREG_TYPE then
        match str.readLReg block offset with
        | .error e => (.error e, tr0 ++ [.readMeta .lreg block offset])
        | .ok (sq, block1, offset1) =>
          let frag := le32_to_cpu sq.fragment
          match (if frag ≠ SQUASHFS_INVALID_FRAG then
                   let frag_offset := le32_to_cpu sq.offset
                   let fr := get_fragment_location frag
                   let frag_size : Nat := u32_of_int fr.1
                   if frag_size < 0 then
                     ((.error (int_of_u32 frag_size) : Except Int (Int × Nat × Nat)),
                      [Event.getFragment frag])
                   else
                     (.ok (fr.2, frag_size, frag_offset), [Event.getFragment frag])
                 else
                   ((.ok (SQUASHFS_INVALID_BLK, 0, 0) : Except Int (Int × Nat × Nat)),
                    ([] : List Event))) with
          | (.error e, ev) => (.error e, tr0 ++ .readMeta .lreg block offset :: ev)
          | (.ok (frag_blk, frag_size, frag_offset), ev) =>
            let i_size : Int := s64_of_u64 (le64_to_cpu sq.file_size)
            (.ok { vi with
                    i_nlink := le32_to_cpu sq.nlink
                    i_size := i_size
                    i_mode := vi.i_mode ||| S_IFREG
                    i_blocks :=
                      (((i_size - (le64_to_cpu sq.sparse : Int) - 1) % 18446744073709551616).toNat
                        >>> 9) + 1
                    fragment_block := frag_blk
                    fragment_size := frag_size
                    fragment_offset := frag_offset
                    start := (le64_to_cpu sq.start_block : Int)
                    block_list_start := block1
                    offset := offset1 },
             tr0 ++ .readMeta .lreg block offset :: ev)
      else if type = SQUASHFS_DIR_TYPE then
        match str.readDir block offset with
        | .error e => (.error e, tr0 ++ [.readMeta .dir block offset])
        | .ok (sq, _, _) =>
          (.ok { vi with
                  i_nlink := le32_to_cpu sq.nlink
                  i_size := (le16_to_cpu sq.file_size : Int)
                  i_mode := vi.i_mode ||| S_IFDIR
                  start := (le32_to_cpu sq.start_block : Int)
                  offset := le16_to_cpu sq.offset
                  dir_idx_cnt := 0
                  parent := le32_to_cpu sq.parent_inode },
           tr0 ++ [.readMeta .dir block offset])
      else if type = SQUASHFS_LDIR_TYPE then
        match str.readLDir block offset with
        | .error e => (.error e, tr0 ++ [.readMeta .ldir block offset])
        | .ok (sq, block1, offset1) =>
          (.ok { vi with
                  i_nlink := le32_to_cpu sq.nlink
                  i_size := (le32_to_cpu sq.file_size : Int)
                  i_mode := vi.i_mode ||| S_IFDIR
                  start := (le32_to_cpu sq.start_block : Int)
                  offset := le16_to_cpu sq.offset
                  dir_idx_start := block1
                  dir_idx_offset := offset1
                  dir_idx_cnt := le16_to_cpu sq.i_count
                  parent := le32_to_cpu sq.parent_inode },
           tr0 ++ [.readMeta .ldir block offset])
      else if type = SQUASHFS_SYMLINK_TYPE then
        match str.readSymlink block offset with
        | .error e => (.error e, tr0 ++ [.readMeta .symlink block offset])
        | .ok (sq, block1, offset1) =>
          (.ok { vi with
                  i_nlink := le32_to_cpu sq.nlink
                  i_size := (le32_to_cpu sq.symlink_size : Int)
                  i_mode := vi.i_mode ||| S_IFLNK
                  start := block1
                  offset := offset1 },
           tr0 ++ [.readMeta .symlink block offset])
      else if type = SQUASHFS_BLKDEV_TYPE ∨ type = SQUASHFS_CHRDEV_TYPE then
        match str.readDev block offset with
        | .error e => (.error e, tr0 ++ [.readMeta .dev block offset])
        | .ok (sq, _, _) =>
          let mode1 : Nat :=
            vi.i_mode ||| (if type = SQUASHFS_CHRDEV_TYPE then S_IFCHR else S_IFBLK)
          let rdev := le32_to_cpu sq.rdev
          let dm := new_decode_dev rdev
          (.ok { vi with
                  i_nlink := le32_to_cpu sq.nlink
                  i_mode := le16_to_cpu mode1
                  i_rdev_major := dm.1
                  i_rdev_minor := dm.2 },
           tr0 ++ [.readMeta .dev block offset])
      else if type = SQUASHFS_FIFO_TYPE ∨ type = SQUASHFS_SOCKET_TYPE then
        match str.readIpc block offset with
        | .error e => (.error e, tr0 ++ [.readMeta .ipc block offset])
        | .ok (sq, _, _) =>
          let mode1 : Nat :=
            vi.i_mode ||| (if type = SQUASHFS_FIFO_TYPE then S_IFIFO else S_IFSOCK)
          (.ok { vi with
                  i_nlink := le32_to_cpu sq.nlink
                  i_mode := le16_to_cpu mode1
                  i_rdev_major := 0
                  i_rdev_minor := 0 },
           tr0 ++ [.readMeta .ipc block offset])
      else
        (.error (-EINVAL), tr0)

/-- ID Resolver stub that always succeeds, used by concrete witness
decodes. -/
def okIds : Nat → Except Int Nat := fun i => Except.ok (1000 + i)

/-- ID Resolver stub that always fails with `-EINVAL`-style errno `-27`. -/
def failIds : Nat → Except Int Nat := fun _ => Except.error (-27)

/-- Fragment Resolver stub returning a harmless success, used where the
decode under test must not consult it. -/
def stubFrag : Nat → Int × Int := fun _ => (0, 0)

/-- Fragment Resolver stub that fails: C return value `-5` (`-EIO`), with
an arbitrary block value stored through the output pointer. -/
def failFrag : Nat → Int × Int := fun _ => (-5, 77)

/-- Concrete base header with a chosen type discriminant, for witness
decodes. -/
def wBase (t : Nat) : squashfs_base_inode :=
  { inode_type := t, mode := 420, uid := 3, guid := 4, mtime := 111, inode_number := 9 }

/-- Concrete metadata stream fixture: every record read succeeds with a
fixed record and advances the cursor; the base header carries type `t`. -/
def wStream (t : Nat) : MetaStream :=
  { readBase := fun b o => .ok (wBase t, b, o + 16)
    readReg := fun b o =>
      .ok ({ start_block := 5, fragment := 4294967295, offset := 7, file_size := 1000 }, b, o + 32)
    readLReg := fun b o =>
      .ok ({ start_block := 5, file_size := 1048576, sparse := 512000, nlink := 2,
             fragment := 4294967295, offset := 7 }, b, o + 56)
    readDir := fun b o =>
      .ok ({ start_block := 11, nlink := 2, file_size := 300, offset := 13,
             parent_inode := 1 }, b, o + 32)
    readLDir := fun b o =>
      .ok ({ nlink := 2, file_size := 300, start_block := 11, parent_inode := 1,
             i_count := 3, offset := 13 }, b, o + 40)
    readSymlink := fun b o => .ok ({ nlink := 1, symlink_size := 20 }, b, o + 24)
    readDev := fun b o => .ok ({ nlink := 1, rdev := 2049 }, b, o + 24)
    readIpc := fun b o => .ok ({ nlink := 1 }, b, o + 20) }

/-- Concrete stream whose regular-file records carry the non-sentinel
fragment index 5, for exercising the fragment-resolver path. -/
def badFragStream (t : Nat) : MetaStream :=
  { wStream t with
    readReg := fun b o =>
      .ok ({ start_block := 5, fragment := 5, offset := 7, file_size := 1000 }, b, o + 32)
    readLReg := fun b o =>
      .ok ({ start_block := 5, file_size := 1000, sparse := 0, nlink := 2,
             fragment := 5, offset := 7 }, b, o + 56) }

/-- Concrete stream whose extended regular-file record has file_size 0 and
sparse 0. -/
def zeroLRegStream : MetaStream :=
  { wStream 9 with
    readLReg := fun b o =>
      .ok ({ start_block := 5, file_size := 0, sparse := 0, nlink := 2,
             fragment := 4294967295, offset := 7 }, b, o + 56) }

/-- C6: for every (block_offset, byte_offset) pair in the legal range
(byte_offset < 8192, block_offset within the 32 bits a 48-bit reference
leaves for it), splitting the combined reference returns the original
pair, and conversely every 48-bit reference survives a split/combine
round trip: the codec halves are mutual inverses over the legal range. -/
theorem C6_ref_codec_mutual_inverse :
    (∀ b o : Nat, b < 4294967296 → o < 8192 →
      SQUASHFS_INODE_BLK (SQUASHFS_MKINODE b o) = b ∧
      SQUASHFS_INODE_OFFSET (SQUASHFS_MKINODE b o) = o) ∧
    (∀ r : Nat, r < 281474976710656 →
      SQUASHFS_MKINODE (SQUASHFS_INODE_BLK r) (SQUASHFS_INODE_OFFSET r) = r) := by
  constructor
  · intro b o hb ho
    unfold SQUASHFS_INODE_BLK SQUASHFS_INODE_OFFSET SQUASHFS_MKINODE
    rw [Nat.shiftLeft_eq, Nat.shiftRight_eq_div_pow,
      Nat.and_pow_two_sub_one_eq_mod (b * 2 ^ 16 + o) 16]
    norm_num
    omega
  · intro r hr
    unfold SQUASHFS_INODE_BLK SQUASHFS_INODE_OFFSET SQUASHFS_MKINODE
    rw [Nat.shiftRight_eq_div_pow, Nat.and_pow_two_sub_one_eq_mod r 16, Nat.shiftLeft_eq]
    norm_num
    omega

/-- Witness for C6: the round trip evaluated at the concrete pair
(12345, 678) and at the concrete reference 123456789012345. -/
theorem C6_ref_codec_mutual_inverse_witness :
    (SQUASHFS_INODE_BLK (SQUASHFS_MKINODE 12345 678) = 12345 ∧
      SQUASHFS_INODE_OFFSET (SQUASHFS_MKINODE 12345 678) = 678) ∧
    SQUASHFS_MKINODE (SQUASHFS_INODE_BLK 123456789012345)
      (SQUASHFS_INODE_OFFSET 123456789012345) = 123456789012345 :=
  ⟨C6_ref_codec_mutual_inverse.1 12345 678 (by decide) (by decide),
   C6_ref_codec_mutual_inverse.2 123456789012345 (by decide)⟩

/-- C7: for every device inode decode (block or character), the packed raw
device number read from the record is unpacked through `new_decode_dev`
into major = (raw >> 8) & 0xfff and
minor = (raw & 0xff) | ((raw >> 12) & 0xfff00), with 0xfff00 = 1048320;
in particular the raw value 0x00000801 = 2049 unpacks to major 8,
minor 1, and 0x00100801 = 1050625 (exercising the high minor bits kept by
the 0xfff00 mask) unpacks to major 8, minor 257. -/
theorem C7_device_number_unpacking :
    (∀ (its : Int) (str : MetaStream) (idr : Nat → Except Int Nat)
       (fragr : Nat → Int × Int) (ino : Nat) (base : squashfs_base_inode)
       (b1 : Int) (o1 : Nat) (sq : squashfs_dev_inode) (b2 : Int) (o2 : Nat) (u g : Nat),
      str.readBase ((SQUASHFS_INODE_BLK ino : Int) + its) (SQUASHFS_INODE_OFFSET ino) =
        .ok (base, b1, o1) →
      idr (le16_to_cpu base.uid) = .ok u →
      idr (le16_to_cpu base.guid) = .ok g →
      (le16_to_cpu base.inode_type = SQUASHFS_BLKDEV_TYPE ∨
        le16_to_cpu base.inode_type = SQUASHFS_CHRDEV_TYPE) →
      str.readDev ((SQUASHFS_INODE_BLK ino : Int) + its) (SQUASHFS_INODE_OFFSET ino) =
        .ok (sq, b2, o2) →
      ∃ rec, (squashfs_read_inode its str idr fragr ino).1 = .ok rec ∧
        rec.i_rdev_major = (le32_to_cpu sq.rdev >>> 8) &&& 4095 ∧
        rec.i_rdev_minor =
          (le32_to_cpu sq.rdev &&& 255) ||| ((le32_to_cpu sq.rdev >>> 12) &&& 1048320)) ∧
    new_decode_dev 2049 = (8, 1) ∧ new_decode_dev 1050625 = (8, 257) := by
  constructor
  · intro its str idr fragr ino base b1 o1 sq b2 o2 u g hb hu hg ht hd
    simp only [squashfs_read_inode, squashfs_new_inode]
    rw [hb]
    dsimp only
    rw [hu]
    dsimp only
    rw [hg]
    dsimp only
    rcases ht with ht | ht <;> rw [ht] <;>
      simp only [SQUASHFS_FILE_TYPE, SQUASHFS_LREG_TYPE, SQUASHFS_DIR_TYPE, SQUASHFS_LDIR_TYPE,
        SQUASHFS_SYMLINK_TYPE, SQUASHFS_BLKDEV_TYPE, SQUASHFS_CHRDEV_TYPE,
        reduceIte] <;>
      rw [hd] <;>
      exact ⟨_, rfl, by simp [new_decode_dev], by simp [new_decode_dev]⟩
  · decide

/-- Witness for C7: a concrete block-device decode whose on-disk rdev is
0x801 yields major 8 and minor 1. -/
theorem C7_device_number_unpacking_witness :
    ∃ rec, (squashfs_read_inode 0 (wStream 4) okIds stubFrag 196704).1 = .ok rec ∧
      rec.i_rdev_major = 8 ∧ rec.i_rdev_minor = 1 :=
  C7_device_number_unpacking.1 0 (wStream 4) okIds stubFrag 196704 (wBase 4)
    ((SQUASHFS_INODE_BLK 196704 : Int) + 0) (SQUASHFS_INODE_OFFSET 196704 + 16)
    { nlink := 1, rdev := 2049 }
    ((SQUASHFS_INODE_BLK 196704 : Int) + 0) (SQUASHFS_INODE_OFFSET 196704 + 24)
    1003 1004 rfl rfl rfl (Or.inl rfl) rfl

/-- C8: for every decode, every metadata read — the base-header lookahead
peek and the type-specific record read of every variant alike — starts at
the original (block_offset, byte_offset) encoded by the reference: after
the header peek the cursor is re-positioned (inode.c lines 132-133), so
the type-specific read starts at the record start and re-reads the header
fields (the on-disk variant structs repeat the base header at their
start). -/
theorem C8_variant_read_restarts_at_record_start (its : Int) (str : MetaStream)
    (idr : Nat → Except Int Nat) (fragr : Nat → Int × Int) (ino : Nat) :
    ((squashfs_read_inode its str idr fragr ino).2.all
      (Event.metaAt ((SQUASHFS_INODE_BLK ino : Int) + its) (SQUASHFS_INODE_OFFSET ino))) = true := by
  simp only [squashfs_read_inode, squashfs_new_inode]
  rcases hbm : str.readBase ((SQUASHFS_INODE_BLK ino : Int) + its) (SQUASHFS_INODE_OFFSET ino)
    with e | ⟨sq, b1, o1⟩ <;> dsimp only
  · simp [Event.metaAt]
  rcases hu : idr (le16_to_cpu sq.uid) with e | u <;> dsimp only
  · simp [Event.metaAt]
  rcases hg : idr (le16_to_cpu sq.guid) with e | g <;> dsimp only
  · simp [Event.metaAt]
  repeat' split
  all_goals try (rename_i heq; repeat' split at heq)
  all_goals try (simp only [Prod.mk.injEq] at heq; obtain ⟨-, rfl⟩ := heq)
  all_goals simp_all [Event.metaAt]

/-- C9: for every successfully decoded inode of any variant, the access
time and the change time of the resulting record both equal the
modification time read from the on-disk base header (inode.c lines 69-71
set all three from the single on-disk mtime field). -/
theorem C9_atime_ctime_equal_mtime (its : Int) (str : MetaStream)
    (idr : Nat → Except Int Nat) (fragr : Nat → Int × Int) (ino : Nat)
    (base : squashfs_base_inode) (b1 : Int) (o1 : Nat) (rec : vfs_inode)
    (hb : str.readBase ((SQUASHFS_INODE_BLK ino : Int) + its) (SQUASHFS_INODE_OFFSET ino) =
      .ok (base, b1, o1))
    (hok : (squashfs_read_inode its str idr fragr ino).1 = .ok rec) :
    rec.i_atime = le32_to_cpu base.mtime ∧ rec.i_ctime = le32_to_cpu base.mtime ∧
      rec.i_mtime = le32_to_cpu base.mtime := by
  simp only [squashfs_read_inode, squashfs_new_inode] at hok
  rw [hb] at hok
  dsimp only at hok
  rcases hu : idr (le16_to_cpu base.uid) with e | u <;> rw [hu] at hok <;> dsimp only at hok
  · exact absurd hok (by simp)
  rcases hg : idr (le16_to_cpu base.guid) with e | g <;> rw [hg] at hok <;> dsimp only at hok
  · exact absurd hok (by simp)
  repeat' split at hok
  all_goals simp at hok
  all_goals (subst hok; exact ⟨rfl, rfl, rfl⟩)

/-- Witness for C9: a concrete directory decode whose on-disk mtime is 111
yields a record with atime, ctime and mtime all equal to 111. -/
theorem C9_atime_ctime_equal_mtime_witness :
    ∃ rec : vfs_inode, (squashfs_read_inode 0 (wStream 1) okIds stubFrag 196704).1 = .ok rec ∧
      rec.i_atime = 111 ∧ rec.i_ctime = 111 ∧ rec.i_mtime = 111 := by
  refine ⟨_, rfl, ?_⟩
  exact C9_atime_ctime_equal_mtime 0 (wStream 1) okIds stubFrag 196704 (wBase 1) _ _ _ rfl rfl

/-- C3: for every RegularFile or ExtendedRegularFile decode whose fragment
index equals the reserved "no fragment" sentinel, the resulting record has
fragment_size = 0 and fragment_offset = 0, and the Fragment Resolver is
never invoked during that decode (the trace contains no getFragment
event). -/
theorem C3_sentinel_skips_fragment_resolver :
    (∀ (its : Int) (str : MetaStream) (idr : Nat → Except Int Nat)
       (fragr : Nat → Int × Int) (ino : Nat) (base : squashfs_base_inode)
       (b1 : Int) (o1 : Nat) (sq : squashfs_reg_inode) (b2 : Int) (o2 : Nat) (u g : Nat),
      str.readBase ((SQUASHFS_INODE_BLK ino : Int) + its) (SQUASHFS_INODE_OFFSET ino) =
        .ok (base, b1, o1) →
      idr (le16_to_cpu base.uid) = .ok u →
      idr (le16_to_cpu base.guid) = .ok g →
      le16_to_cpu base.inode_type = SQUASHFS_FILE_TYPE →
      str.readReg ((SQUASHFS_INODE_BLK ino : Int) + its) (SQUASHFS_INODE_OFFSET ino) =
        .ok (sq, b2, o2) →
      le32_to_cpu sq.fragment = SQUASHFS_INVALID_FRAG →
      ∃ rec, (squashfs_read_inode its str idr fragr ino).1 = .ok rec ∧
        rec.fragment_size = 0 ∧ rec.fragment_offset = 0 ∧
        ((squashfs_read_inode its str idr fragr ino).2.all (fun e => !e.isGetFragment)) = true) ∧
    (∀ (its : Int) (str : MetaStream) (idr : Nat → Except Int Nat)
       (fragr : Nat → Int × Int) (ino : Nat) (base : squashfs_base_inode)
       (b1 : Int) (o1 : Nat) (sq : squashfs_lreg_inode) (b2 : Int) (o2 : Nat) (u g : Nat),
      str.readBase ((SQUASHFS_INODE_BLK ino : Int) + its) (SQUASHFS_INODE_OFFSET ino) =
        .ok (base, b1, o1) →
      idr (le16_to_cpu base.uid) = .ok u →
      idr (le16_to_cpu base.guid) = .ok g →
      le16_to_cpu base.inode_type = SQUASHFS_LREG_TYPE →
      str.readLReg ((SQUASHFS_INODE_BLK ino : Int) + its) (SQUASHFS_INODE_OFFSET ino) =
        .ok (sq, b2, o2) →
      le32_to_cpu sq.fragment = SQUASHFS_INVALID_FRAG →
      ∃ rec, (squashfs_read_inode its str idr fragr ino).1 = .ok rec ∧
        rec.fragment_size = 0 ∧ rec.fragment_offset = 0 ∧
        ((squashfs_read_inode its str idr fragr ino).2.all (fun e => !e.isGetFragment)) = true) := by
  constructor
  · intro its str idr fragr ino base b1 o1 sq b2 o2 u g hb hu hg ht hr hfrag
    simp only [squashfs_read_inode, squashfs_new_inode]
    rw [hb]
    dsimp only
    rw [hu]
    dsimp only
    rw [hg]
    dsimp only
    rw [ht, hr]
    dsimp only
    rw [hfrag]
    simp +decide only [SQUASHFS_FILE_TYPE, SQUASHFS_LREG_TYPE, SQUASHFS_INVALID_FRAG]
    refine ⟨_, rfl, rfl, rfl, ?_⟩
    simp [Event.isGetFragment]
  · intro its str idr fragr ino base b1 o1 sq b2 o2 u g hb hu hg ht hr hfrag
    simp only [squashfs_read_inode, squashfs_new_inode]
    rw [hb]
    dsimp only
    rw [hu]
    dsimp only
    rw [hg]
    dsimp only
    rw [ht, hr]
    dsimp only
    rw [hfrag]
    simp +decide only [SQUASHFS_FILE_TYPE, SQUASHFS_LREG_TYPE, SQUASHFS_INVALID_FRAG]
    refine ⟨_, rfl, rfl, rfl, ?_⟩
    simp [Event.isGetFragment]

/-- Witness for C3: concrete RegularFile and ExtendedRegularFile decodes
whose fragment index is the sentinel yield fragment_size 0 and
fragment_offset 0 and a trace without any Fragment Resolver call. -/
theorem C3_sentinel_skips_fragment_resolver_witness :
    (∃ rec, (squashfs_read_inode 0 (wStream 2) okIds stubFrag 196704).1 = .ok rec ∧
      rec.fragment_size = 0 ∧ rec.fragment_offset = 0 ∧
      ((squashfs_read_inode 0 (wStream 2) okIds stubFrag 196704).2.all
        (fun e => !e.isGetFragment)) = true) ∧
    (∃ rec, (squashfs_read_inode 0 (wStream 9) okIds stubFrag 196704).1 = .ok rec ∧
      rec.fragment_size = 0 ∧ rec.fragment_offset = 0 ∧
      ((squashfs_read_inode 0 (wStream 9) okIds stubFrag 196704).2.all
        (fun e => !e.isGetFragment)) = true) :=
  ⟨C3_sentinel_skips_fragment_resolver.1 0 (wStream 2) okIds stubFrag 196704 (wBase 2)
      _ _ _ _ _ 1003 1004 rfl rfl rfl rfl rfl rfl,
   C3_sentinel_skips_fragment_resolver.2 0 (wStream 9) okIds stubFrag 196704 (wBase 9)
      _ _ _ _ _ 1003 1004 rfl rfl rfl rfl rfl rfl⟩

/-- C5: for every decode, the owner and group indices of the base header
are resolved through the ID Resolver immediately after the header read;
if either resolution fails the whole decode aborts with exactly that
error before any type-specific record is read (the trace stops at the
failing resolver call), and on success the decode always begins with the
header read followed by the two resolver calls. -/
theorem C5_id_resolution_immediate_and_aborting :
    (∀ (its : Int) (str : MetaStream) (idr : Nat → Except Int Nat)
       (fragr : Nat → Int × Int) (ino : Nat) (base : squashfs_base_inode)
       (b1 : Int) (o1 : Nat) (e : Int),
      str.readBase ((SQUASHFS_INODE_BLK ino : Int) + its) (SQUASHFS_INODE_OFFSET ino) =
        .ok (base, b1, o1) →
      idr (le16_to_cpu base.uid) = .error e →
      squashfs_read_inode its str idr fragr ino =
        (.error e,
         [.readMeta .base ((SQUASHFS_INODE_BLK ino : Int) + its) (SQUASHFS_INODE_OFFSET ino),
          .getId (le16_to_cpu base.uid)])) ∧
    (∀ (its : Int) (str : MetaStream) (idr : Nat → Except Int Nat)
       (fragr : Nat → Int × Int) (ino : Nat) (base : squashfs_base_inode)
       (b1 : Int) (o1 : Nat) (u : Nat) (e : Int),
      str.readBase ((SQUASHFS_INODE_BLK ino : Int) + its) (SQUASHFS_INODE_OFFSET ino) =
        .ok (base, b1, o1) →
      idr (le16_to_cpu base.uid) = .ok u →
      idr (le16_to_cpu base.guid) = .error e →
      squashfs_read_inode its str idr fragr ino =
        (.error e,
         [.readMeta .base ((SQUASHFS_INODE_BLK ino : Int) + its) (SQUASHFS_INODE_OFFSET ino),
          .getId (le16_to_cpu base.uid), .getId (le16_to_cpu base.guid)])) ∧
    (∀ (its : Int) (str : MetaStream) (idr : Nat → Except Int Nat)
       (fragr : Nat → Int × Int) (ino : Nat) (base : squashfs_base_inode)
       (b1 : Int) (o1 : Nat) (u g : Nat),
      str.readBase ((SQUASHFS_INODE_BLK ino : Int) + its) (SQUASHFS_INODE_OFFSET ino) =
        .ok (base, b1, o1) →
      idr (le16_to_cpu base.uid) = .ok u →
      idr (le16_to_cpu base.guid) = .ok g →
      (squashfs_read_inode its str idr fragr ino).2.take 3 =
        [.readMeta .base ((SQUASHFS_INODE_BLK ino : Int) + its) (SQUASHFS_INODE_OFFSET ino),
         .getId (le16_to_cpu base.uid), .getId (le16_to_cpu base.guid)]) := by
  refine ⟨?_, ?_, ?_⟩
  · intro its str idr fragr ino base b1 o1 e hb hu
    simp only [squashfs_read_inode, squashfs_new_inode]
    rw [hb]
    dsimp only
    rw [hu]
  · intro its str idr fragr ino base b1 o1 u e hb hu hg
    simp only [squashfs_read_inode, squashfs_new_inode]
    rw [hb]
    dsimp only
    rw [hu]
    dsimp only
    rw [hg]
  · intro its str idr fragr ino base b1 o1 u g hb hu hg
    simp only [squashfs_read_inode, squashfs_new_inode]
    rw [hb]
    dsimp only
    rw [hu]
    dsimp only
    rw [hg]
    dsimp only
    repeat' split
    all_goals simp

/-- Witness for C5: a concrete decode whose ID Resolver fails on the owner
index aborts with that error after exactly the header read and the single
failing resolver call. -/
theorem C5_id_resolution_immediate_and_aborting_witness :
    squashfs_read_inode 0 (wStream 2) failIds stubFrag 196704 =
      (.error (-27), [.readMeta .base 3 96, .getId 3]) :=
  C5_id_resolution_immediate_and_aborting.1 0 (wStream 2) failIds stubFrag 196704
    (wBase 2) 3 112 (-27) rfl rfl

/-- C10: for every Symlink decode, the decoder reads only the base header
and the fixed symlink header and never reads the target bytes (the trace
is exactly those two metadata reads plus the two id resolutions); it
records the cursor position immediately after the symlink header read as
the target address (start, offset) and sets the record size to the
on-disk target length. -/
theorem C10_symlink_defers_target :
    ∀ (its : Int) (str : MetaStream) (idr : Nat → Except Int Nat)
      (fragr : Nat → Int × Int) (ino : Nat) (base : squashfs_base_inode)
      (b1 : Int) (o1 : Nat) (sym : squashfs_symlink_inode) (b2 : Int) (o2 : Nat) (u g : Nat),
    str.readBase ((SQUASHFS_INODE_BLK ino : Int) + its) (SQUASHFS_INODE_OFFSET ino) =
      .ok (base, b1, o1) →
    idr (le16_to_cpu base.uid) = .ok u →
    idr (le16_to_cpu base.guid) = .ok g →
    le16_to_cpu base.inode_type = SQUASHFS_SYMLINK_TYPE →
    str.readSymlink ((SQUASHFS_INODE_BLK ino : Int) + its) (SQUASHFS_INODE_OFFSET ino) =
      .ok (sym, b2, o2) →
    ∃ rec, (squashfs_read_inode its str idr fragr ino).1 = .ok rec ∧
      rec.start = b2 ∧ rec.offset = o2 ∧
      rec.i_size = (le32_to_cpu sym.symlink_size : Int) ∧
      (squashfs_read_inode its str idr fragr ino).2 =
        [.readMeta .base ((SQUASHFS_INODE_BLK ino : Int) + its) (SQUASHFS_INODE_OFFSET ino),
         .getId (le16_to_cpu base.uid), .getId (le16_to_cpu base.guid),
         .readMeta .symlink ((SQUASHFS_INODE_BLK ino : Int) + its) (SQUASHFS_INODE_OFFSET ino)] := by
  intro its str idr fragr ino base b1 o1 sym b2 o2 u g hb hu hg ht hs
  simp only [squashfs_read_inode, squashfs_new_inode]
  rw [hb]
  dsimp only
  rw [hu]
  dsimp only
  rw [hg]
  dsimp only
  rw [ht, hs]
  simp +decide only [SQUASHFS_FILE_TYPE, SQUASHFS_LREG_TYPE, SQUASHFS_DIR_TYPE,
    SQUASHFS_LDIR_TYPE, SQUASHFS_SYMLINK_TYPE]
  exact ⟨_, rfl, rfl, rfl, rfl, rfl⟩

/-- Witness for C10: a concrete symlink decode with target length 20
records the post-header cursor position (3, 120) and size 20, and its
trace holds no further read. -/
theorem C10_symlink_defers_target_witness :
    ∃ rec, (squashfs_read_inode 0 (wStream 3) okIds stubFrag 196704).1 = .ok rec ∧
      rec.start = 3 ∧ rec.offset = 120 ∧ rec.i_size = 20 ∧
      (squashfs_read_inode 0 (wStream 3) okIds stubFrag 196704).2 =
        [.readMeta .base 3 96, .getId 3, .getId 4, .readMeta .symlink 3 96] :=
  C10_symlink_defers_target 0 (wStream 3) okIds stubFrag 196704 (wBase 3)
    3 112 { nlink := 1, symlink_size := 20 } 3 120 1003 1004 rfl rfl rfl rfl rfl

/-- Counterexample for C4: the claim says an unknown type tag yields an
UnsupportedInodeType error carrying the raw tag value.  In the code the
unknown-tag branch returns the fixed generic errno `-EINVAL` (inode.c line
332): at tag 99 and at tag 98 the decode error is the identical value
`-22`, so the returned error carries no tag information (the raw tag is
only printed to the kernel log). -/
theorem C4_unknown_tag_error_is_generic_counterexample :
    (squashfs_read_inode 0 (wStream 99) okIds stubFrag 196704).1 = .error (-22) ∧
    (squashfs_read_inode 0 (wStream 98) okIds stubFrag 196704).1 = .error (-22) :=
  ⟨rfl, rfl⟩

/-- C4 (amended): for every input whose header type tag is none of the
nine values handled by the switch, decode fails with the generic
`-EINVAL` error — the same error value for every unknown tag, the raw tag
appearing only in the diagnostic log — and no default or fallback record
is produced, nor any type-specific read performed (the trace ends at the
id resolutions). -/
theorem C4_unknown_tag_fails_with_einval :
    ∀ (its : Int) (str : MetaStream) (idr : Nat → Except Int Nat)
      (fragr : Nat → Int × Int) (ino : Nat) (base : squashfs_base_inode)
      (b1 : Int) (o1 : Nat) (u g : Nat),
    str.readBase ((SQUASHFS_INODE_BLK ino : Int) + its) (SQUASHFS_INODE_OFFSET ino) =
      .ok (base, b1, o1) →
    idr (le16_to_cpu base.uid) = .ok u →
    idr (le16_to_cpu base.guid) = .ok g →
    le16_to_cpu base.inode_type ≠ SQUASHFS_FILE_TYPE →
    le16_to_cpu base.inode_type ≠ SQUASHFS_LREG_TYPE →
    le16_to_cpu base.inode_type ≠ SQUASHFS_DIR_TYPE →
    le16_to_cpu base.inode_type ≠ SQUASHFS_LDIR_TYPE →
    le16_to_cpu base.inode_type ≠ SQUASHFS_SYMLINK_TYPE →
    le16_to_cpu base.inode_type ≠ SQUASHFS_BLKDEV_TYPE →
    le16_to_cpu base.inode_type ≠ SQUASHFS_CHRDEV_TYPE →
    le16_to_cpu base.inode_type ≠ SQUASHFS_FIFO_TYPE →
    le16_to_cpu base.inode_type ≠ SQUASHFS_SOCKET_TYPE →
    squashfs_read_inode its str idr fragr ino =
      (.error (-EINVAL),
       [.readMeta .base ((SQUASHFS_INODE_BLK ino : Int) + its) (SQUASHFS_INODE_OFFSET ino),
        .getId (le16_to_cpu base.uid), .getId (le16_to_cpu base.guid)]) := by
  intro its str idr fragr ino base b1 o1 u g hb hu hg hf hl hd hld hs hbd hcd hff hsk
  simp only [squashfs_read_inode, squashfs_new_inode]
  rw [hb]
  dsimp only
  rw [hu]
  dsimp only
  rw [hg]
  dsimp only
  rw [if_neg hf, if_neg hl, if_neg hd, if_neg hld, if_neg hs,
    if_neg (fun hor => hor.elim hbd hcd), if_neg (fun hor => hor.elim hff hsk)]

/-- Witness for C4 (amended): a concrete decode with the unknown tag 99
returns the generic error and a trace ending at the id resolutions. -/
theorem C4_unknown_tag_fails_with_einval_witness :
    squashfs_read_inode 0 (wStream 99) okIds stubFrag 196704 =
      (.error (-EINVAL), [.readMeta .base 3 96, .getId 3, .getId 4]) :=
  C4_unknown_tag_fails_with_einval 0 (wStream 99) okIds stubFrag 196704 (wBase 99)
    3 112 1003 1004 rfl rfl rfl (by decide) (by decide) (by decide) (by decide)
    (by decide) (by decide) (by decide) (by decide) (by decide)

/-- C1 (code bug): `inode.c` declares `frag_size` as `unsigned int` (lines
138 and 180), so its error check `if (frag_size < 0)` (lines 151 and 193)
is always false and the negative result of `get_fragment_location` is
never detected.  Evaluated at a RegularFile and at an ExtendedRegularFile
record with the valid fragment index 5 and a Fragment Resolver failing
with `-5` (`-EIO`): the resolver is invoked (the trace shows the call),
yet the decode succeeds, storing the wrapped value 2^32 - 5 as
fragment_size instead of propagating the error as the claim and the
dead error path in the code itself intend. -/
theorem C1_fragment_error_check_dead_code :
    ((squashfs_read_inode 0 (badFragStream 2) okIds failFrag 196704).1.toOption.map
      (fun r => (r.fragment_size, r.fragment_block))) = some (4294967291, 77) ∧
    ((squashfs_read_inode 0 (badFragStream 2) okIds failFrag 196704).2.any
      Event.isGetFragment) = true ∧
    ((squashfs_read_inode 0 (badFragStream 9) okIds failFrag 196704).1.toOption.map
      (fun r => (r.fragment_size, r.fragment_block))) = some (4294967291, 77) ∧
    ((squashfs_read_inode 0 (badFragStream 9) okIds failFrag 196704).2.any
      Event.isGetFragment) = true :=
  ⟨rfl, rfl, rfl, rfl⟩

/-- The basic regular-file sector computation
`((i_size - 1) >> 9) + 1` (signed 64-bit arithmetic, arithmetic right
shift, then conversion to the unsigned blkcnt_t) equals ceil(size / 512)
for every 32-bit size, including 0 for size 0. -/
theorem reg_i_blocks_eq_ceil (n : Nat) (hn : n < 4294967296) :
    ((((n : Int) - 1).fdiv 512 + 1) % 18446744073709551616).toNat = (n + 511) / 512 := by
  rcases Nat.eq_zero_or_pos n with h0 | h0
  · subst h0; decide
  · rw [Int.fdiv_eq_ediv _ (by norm_num)]
    omega

/-- The extended regular-file sector computation
`((i_size - sparse - 1) >> 9) + 1` (unsigned 64-bit arithmetic, logical
shift) equals ceil((size - sparse) / 512) whenever sparse < size. -/
theorem lreg_i_blocks_eq_ceil (fs sp : Nat) (hfs : fs < 18446744073709551616)
    (h : sp < fs) :
    ((s64_of_u64 fs - (sp : Int) - 1) % 18446744073709551616).toNat >>> 9 + 1 =
      (fs - sp + 511) / 512 := by
  rw [Nat.shiftRight_eq_div_pow]
  have h9 : (2 : Nat) ^ 9 = 512 := rfl
  rw [h9]
  unfold s64_of_u64
  split <;> omega

/-- Counterexample for C2: the claim says sector count is 0 when size = 0
for every decoded regular-file variant.  An ExtendedRegularFile with
file_size 0 and sparse 0 decodes to i_blocks = 2^55, not 0: the C
expression `inode->i_size - le64_to_cpu(sqsh_ino->sparse) - 1` converts
the signed loff_t to unsigned 64-bit (u64 operand), wraps to 2^64 - 1,
and the logical shift yields 2^55 (the basic RegularFile path, computed in
signed arithmetic, does yield 0 for size 0). -/
theorem C2_zero_size_lreg_counterexample :
    (squashfs_read_inode 0 zeroLRegStream okIds stubFrag 196704).1.toOption.map
      vfs_inode.i_blocks = some 36028797018963968 :=
  rfl

/-- C2 (amended): the sector count of a decoded basic RegularFile equals
ceil(size / 512) for every 32-bit size — hence 0 when size = 0 and at
least 1 when size > 0; for an ExtendedRegularFile it equals
ceil((size - sparse_bytes) / 512) whenever sparse_bytes < size, and is at
least 1 in every case (when size ≤ sparse_bytes, including size = 0, the
unsigned 64-bit computation wraps to a huge value instead of 0). -/
theorem C2_sector_count_formula :
    (∀ (its : Int) (str : MetaStream) (idr : Nat → Except Int Nat)
       (fragr : Nat → Int × Int) (ino : Nat) (base : squashfs_base_inode)
       (b1 : Int) (o1 : Nat) (sq : squashfs_reg_inode) (b2 : Int) (o2 : Nat) (u g : Nat),
      str.readBase ((SQUASHFS_INODE_BLK ino : Int) + its) (SQUASHFS_INODE_OFFSET ino) =
        .ok (base, b1, o1) →
      idr (le16_to_cpu base.uid) = .ok u →
      idr (le16_to_cpu base.guid) = .ok g →
      le16_to_cpu base.inode_type = SQUASHFS_FILE_TYPE →
      str.readReg ((SQUASHFS_INODE_BLK ino : Int) + its) (SQUASHFS_INODE_OFFSET ino) =
        .ok (sq, b2, o2) →
      (squashfs_read_inode its str idr fragr ino).1.toOption.map vfs_inode.i_blocks =
        some ((le32_to_cpu sq.file_size + 511) / 512)) ∧
    (∀ (its : Int) (str : MetaStream) (idr : Nat → Except Int Nat)
       (fragr : Nat → Int × Int) (ino : Nat) (base : squashfs_base_inode)
       (b1 : Int) (o1 : Nat) (sq : squashfs_lreg_inode) (b2 : Int) (o2 : Nat) (u g : Nat),
      str.readBase ((SQUASHFS_INODE_BLK ino : Int) + its) (SQUASHFS_INODE_OFFSET ino) =
        .ok (base, b1, o1) →
      idr (le16_to_cpu base.uid) = .ok u →
      idr (le16_to_cpu base.guid) = .ok g →
      le16_to_cpu base.inode_type = SQUASHFS_LREG_TYPE →
      str.readLReg ((SQUASHFS_INODE_BLK ino : Int) + its) (SQUASHFS_INODE_OFFSET ino) =
        .ok (sq, b2, o2) →
      (le64_to_cpu sq.sparse < le64_to_cpu sq.file_size →
        (squashfs_read_inode its str idr fragr ino).1.toOption.map vfs_inode.i_blocks =
          some ((le64_to_cpu sq.file_size - le64_to_cpu sq.sparse + 511) / 512)) ∧
      (∃ n, (squashfs_read_inode its str idr fragr ino).1.toOption.map vfs_inode.i_blocks =
          some n ∧ 1 ≤ n)) := by
  constructor
  · intro its str idr fragr ino base b1 o1 sq b2 o2 u g hb hu hg ht hr
    simp only [squashfs_read_inode, squashfs_new_inode]
    rw [hb]
    dsimp only
    rw [hu]
    dsimp only
    rw [hg]
    dsimp only
    rw [ht, hr]
    dsimp only
    simp +decide only [SQUASHFS_FILE_TYPE]
    by_cases hfrag : le32_to_cpu sq.fragment = SQUASHFS_INVALID_FRAG
    · rw [hfrag]
      simp +decide only [SQUASHFS_INVALID_FRAG]
      simp only [Except.toOption, Option.map]
      exact congrArg some (reg_i_blocks_eq_ceil _ (Nat.mod_lt _ (by norm_num)))
    · rw [if_pos hfrag, if_neg (Nat.not_lt_zero _)]
      dsimp only
      simp only [Except.toOption, Option.map]
      exact congrArg some (reg_i_blocks_eq_ceil _ (Nat.mod_lt _ (by norm_num)))
  · intro its str idr fragr ino base b1 o1 sq b2 o2 u g hb hu hg ht hr
    simp only [squashfs_read_inode, squashfs_new_inode]
    rw [hb]
    dsimp only
    rw [hu]
    dsimp only
    rw [hg]
    dsimp only
    rw [ht, hr]
    dsimp only
    simp +decide only [SQUASHFS_FILE_TYPE, SQUASHFS_LREG_TYPE]
    by_cases hfrag : le32_to_cpu sq.fragment = SQUASHFS_INVALID_FRAG
    · rw [hfrag]
      simp +decide only [SQUASHFS_INVALID_FRAG]
      constructor
      · intro hsp
        simp only [Except.toOption, Option.map]
        exact congrArg some (lreg_i_blocks_eq_ceil _ _ (Nat.mod_lt _ (by norm_num)) hsp)
      · exact ⟨_, rfl, Nat.le_add_left 1 _⟩
    · rw [if_pos hfrag, if_neg (Nat.not_lt_zero _)]
      dsimp only
      constructor
      · intro hsp
        simp only [Except.toOption, Option.map]
        exact congrArg some (lreg_i_blocks_eq_ceil _ _ (Nat.mod_lt _ (by norm_num)) hsp)
      · exact ⟨_, rfl, Nat.le_add_left 1 _⟩

/-- Witness for C2 (amended): a basic RegularFile of size 1000 decodes to
2 sectors, and an ExtendedRegularFile of size 1048576 with 512000 sparse
bytes decodes to ceil((1048576 - 512000)/512) = 1048 sectors, at least 1. -/
theorem C2_sector_count_formula_witness :
    (squashfs_read_inode 0 (wStream 2) okIds stubFrag 196704).1.toOption.map
      vfs_inode.i_blocks = some 2 ∧
    (squashfs_read_inode 0 (wStream 9) okIds stubFrag 196704).1.toOption.map
      vfs_inode.i_blocks = some 1048 ∧
    (∃ n, (squashfs_read_inode 0 (wStream 9) okIds stubFrag 196704).1.toOption.map
      vfs_inode.i_blocks = some n ∧ 1 ≤ n) :=
  ⟨C2_sector_count_formula.1 0 (wStream 2) okIds stubFrag 196704 (wBase 2)
      3 112 _ 3 128 1003 1004 rfl rfl rfl rfl rfl,
   (C2_sector_count_formula.2 0 (wStream 9) okIds stubFrag 196704 (wBase 9)
      3 112 _ 3 152 1003 1004 rfl rfl rfl rfl rfl).1 (by decide),
   (C2_sector_count_formula.2 0 (wStream 9) okIds stubFrag 196704 (wBase 9)
      3 112 _ 3 152 1003 1004 rfl rfl rfl rfl rfl).2⟩
